import Mathlib

/-!
Verification of the auto_mount storage-registration subsystem.

The Rust sources are embedded shallowly:

* external commands (`lsblk`, `blkid`, `blockdev`, `parted`, `mkfs.*`,
  `find`, `mount -a`, `mkdir`) are modelled by an `Env` record mapping each
  invocation to its captured outcome (`CmdOut` = exit status + stdout +
  stderr); `none` models an invocation whose process could not be started
  (`std::process::Command::output` returning `Err`);
* the file system touched by the mount registrar (`/etc/fstab`, its
  timestamped backup and its `.tmp` sibling) is an association list from
  paths to raw string contents;
* Rust string primitives used by the code (`str::lines`, `str::trim`,
  `str::split_whitespace`, `str::contains`, `str::starts_with`,
  `str::split('/')`, `u64::parse`) are re-implemented over `List Char`
  so that every definition is executable and provable by induction.

Each claim theorem is stated over these embedded definitions.
-/

deriving instance DecidableEq for Except

/-! ### Rust string primitives -/

/-- Whitespace recognizer used by `str::trim` / `str::split_whitespace`
(restricted to the ASCII whitespace occurring in this program's data). -/
def isWsChar (c : Char) : Bool :=
  c = ' ' || c = '\t' || c = '\n' || c = '\r'

/-- Model of Rust `str::trim`. -/
def rsTrim (s : String) : String :=
  String.mk (((s.data.dropWhile isWsChar).reverse.dropWhile isWsChar).reverse)

/-- Prefix test on character lists. -/
def listIsPrefix : List Char → List Char → Bool
  | [], _ => true
  | _ :: _, [] => false
  | a :: as, b :: bs => a = b && listIsPrefix as bs

/-- Model of Rust `str::starts_with`. -/
def rsStartsWith (s pre : String) : Bool :=
  listIsPrefix pre.data s.data

/-- Model of Rust `str::contains` (substring containment). -/
def strContains (s pat : String) : Bool :=
  decide (pat.data <:+: s.data)

/-- Splitting a character list at every occurrence of a separator, keeping
empty pieces — the semantics of Rust `str::split(sep)`. -/
def splitCharData (sep : Char) : List Char → List (List Char)
  | [] => [[]]
  | c :: rest =>
    let ps := splitCharData sep rest
    if c = sep then [] :: ps
    else
      match ps with
      | [] => [[c]]
      | p :: ps' => (c :: p) :: ps'

/-- Strip one trailing carriage return, as Rust `str::lines` does. -/
def stripCr (l : List Char) : List Char :=
  if l.getLast? = some '\r' then l.dropLast else l

/-- Model of Rust `str::lines`: split on `'\n'`, drop the final empty piece
produced by a trailing newline, strip one trailing `'\r'` per line. -/
def rustLines (s : String) : List String :=
  let ps := splitCharData '\n' s.data
  let ps := if ps.getLast? = some [] then ps.dropLast else ps
  ps.map (fun l => String.mk (stripCr l))

/-- Content written by a sequence of Rust `writeln!` calls, one per line. -/
def writeLines (ls : List String) : String :=
  String.mk (ls.foldr (fun l acc => l.data ++ '\n' :: acc) [])

/-- Accumulator pass for `rsSplitWhitespace`. -/
def splitWsAux : List Char → List Char → List String
  | [], acc => if acc.isEmpty then [] else [String.mk acc.reverse]
  | c :: cs, acc =>
    if isWsChar c then
      if acc.isEmpty then splitWsAux cs [] else String.mk acc.reverse :: splitWsAux cs []
    else splitWsAux cs (c :: acc)

/-- Model of Rust `str::split_whitespace`: maximal non-whitespace runs,
no empty items. -/
def rsSplitWhitespace (s : String) : List String :=
  splitWsAux s.data []

/-- Model of Rust `u64::from_str` (`parse::<u64>()`): optional leading `+`,
at least one ASCII digit, value below `2 ^ 64`. -/
def parseU64 (s : String) : Option Nat :=
  let cs := match s.data with
    | '+' :: rest => rest
    | cs => cs
  if cs.isEmpty then none
  else if cs.all (fun c => c.isDigit) then
    let n := cs.foldl (fun acc c => acc * 10 + (c.toNat - 48)) 0
    if n < 2 ^ 64 then some n else none
  else none

/-- Insertion step of the string sort used to model `Vec::sort`. -/
def insertSorted (x : String) : List String → List String
  | [] => [x]
  | y :: ys => if x < y then x :: y :: ys else y :: insertSorted x ys

/-- Model of Rust `Vec::<String>::sort` (lexicographic ascending). -/
def sortStrings (l : List String) : List String :=
  l.foldr insertSorted []

/-! ### File-system model -/

/-- File system restricted to the files the mount registrar touches:
an association list from absolute paths to raw file contents. -/
abbrev FS : Type := List (String × String)

/-- Content of the file at a path, `none` when the file does not exist. -/
def fsRead (fs : FS) (p : String) : Option String :=
  (List.find? (fun kv => kv.1 = p) fs).map (fun kv => kv.2)

/-- Create or overwrite the file at a path. -/
def fsWrite (fs : FS) (p c : String) : FS :=
  (p, c) :: List.filter (fun kv => kv.1 ≠ p) fs

/-- Delete the file at a path. -/
def fsErase (fs : FS) (p : String) : FS :=
  List.filter (fun kv => kv.1 ≠ p) fs

/-- Model of `Path::exists`. -/
def fsExists (fs : FS) (p : String) : Bool :=
  (fsRead fs p).isSome

/-- Model of `std::fs::rename src dst` (atomic replace of `dst`). -/
def fsRename (fs : FS) (src dst : String) : FS :=
  match fsRead fs src with
  | none => fs
  | some c => fsWrite (fsErase fs src) dst c

/-! ### External command environment -/

/-- Captured outcome of one external process invocation
(`std::process::Output`). -/
structure CmdOut where
  success : Bool
  stdout : String
  stderr : String
deriving DecidableEq, Repr

/-- Outcome of `std::fs::create_dir_all`. -/
inductive MkdirOutcome where
  | ok : MkdirOutcome
  | alreadyExists : MkdirOutcome
  | failed : String → MkdirOutcome
deriving DecidableEq, Repr

/-- Environment of the process: what each external command invocation
returns, and the ambient system state the program queries.  A `none`
command result models `Command::output()` itself failing (process not
spawnable). -/
structure Env where
  timestamp : Nat
  devDirExists : Bool
  sysblock : Option (List String)
  devExists : String → Bool
  findCmd : Option CmdOut
  findCmdSudo : Option CmdOut
  lsblkRota : String → Option CmdOut
  disks : List String
  blockdevSize : String → Option CmdOut
  partedMklabel : String → Option CmdOut
  partedMkpart : String → Option CmdOut
  mkfsRun : String → String → Option CmdOut
  blkid : String → Option CmdOut
  mkdir : String → MkdirOutcome
  mountAll : Option CmdOut

/-! ### `mount_manager.rs` -/

namespace mount_manager

/-- Error type `MountError` of `mount_manager.rs`.  `IoError` carries the
display text of the underlying I/O error. -/
inductive MountError where
  | IoError : String → MountError
  | CommandFailed : String → MountError
  | InvalidDevice : String → MountError
  | MountPointCreationFailed : String → MountError
  | BackupFailed : MountError
  | ValidationFailed : String → MountError
  | UuidNotFound : String → MountError
  | PermissionDenied : MountError
deriving DecidableEq, Repr

/-- Display text of a `MountError` (the `thiserror` derive). -/
def errString : MountError → String
  | .IoError s => "IO error: " ++ s
  | .CommandFailed s => "Command failed: " ++ s
  | .InvalidDevice s => "Invalid device path: " ++ s
  | .MountPointCreationFailed s => "Mount point creation failed: " ++ s
  | .BackupFailed => "Fstab backup failed"
  | .ValidationFailed s => "Fstab validation failed: " ++ s
  | .UuidNotFound s => "UUID not found for device: " ++ s
  | .PermissionDenied => "Permission denied"

/-- Struct `MountConfig` of `mount_manager.rs`. -/
structure MountConfig where
  filesystem_type : String
  mount_options : String
  mount_base_path : String
  backup_fstab : Bool
  validate_before_write : Bool
deriving DecidableEq, Repr

/-- Impl `Default for MountConfig`. -/
def MountConfig.default : MountConfig :=
  { filesystem_type := "ext4"
    mount_options := "rw,acl"
    mount_base_path := "/mnt"
    backup_fstab := true
    validate_before_write := true }

/-- Struct `MountEntry`. -/
structure MountEntry where
  device : String
  uuid : String
  mount_point : String
  filesystem : String
  options : String
deriving DecidableEq, Repr

/-- Struct `MountResult`. -/
structure MountResult where
  device : String
  mount_point : String
  success : Bool
  error_message : Option String
deriving DecidableEq, Repr

/-- The fixed path `/etc/fstab` used by `mount_devices_with_config`. -/
def fstabPath : String := "/etc/fstab"

/-- Backup path `{fstab_path}.backup.{timestamp}`. -/
def backupPath (fstab_path : String) (timestamp : Nat) : String :=
  fstab_path ++ ".backup." ++ toString timestamp

/-- Function `create_fstab_backup`: copy the file to the timestamped
backup path and verify the copy's length matches the original's. -/
def create_fstab_backup (fs : FS) (fstab_path : String) (timestamp : Nat) :
    Except MountError (String × FS) :=
  let backup_path := backupPath fstab_path timestamp
  match fsRead fs fstab_path with
  | none => .error (.IoError "copy failed")
  | some content =>
    let fs1 := fsWrite fs backup_path content
    match fsRead fs1 fstab_path, fsRead fs1 backup_path with
    | some original, some backup =>
      if original.utf8ByteSize ≠ backup.utf8ByteSize then .error .BackupFailed
      else .ok (backup_path, fs1)
    | _, _ => .error (.IoError "metadata failed")

/-- Function `restore_fstab_backup`: `fs::copy(backup_path, fstab_path)`. -/
def restore_fstab_backup (fs : FS) (fstab_path backup_path : String) :
    Except MountError Unit × FS :=
  match fsRead fs backup_path with
  | none => (.error (.IoError "copy failed"), fs)
  | some content => (.ok (), fsWrite fs fstab_path content)

/-- Function `device_uuid`: run `blkid DEV -s UUID -o export` and return the
first `UUID=`-prefixed output line. -/
def device_uuid (env : Env) (device : String) : Except MountError String :=
  match env.blkid device with
  | none => .error (.IoError "spawn failed")
  | some out =>
    if !out.success then .error (.CommandFailed out.stderr)
    else
      match (rustLines out.stdout).find? (fun line => rsStartsWith line "UUID=") with
      | some line => .ok line
      | none => .error (.UuidNotFound device)

/-- Function `create_mount_point`: `create_dir_all`, tolerating
"already exists". -/
def create_mount_point (env : Env) (mount_point : String) :
    Except MountError Unit :=
  match env.mkdir mount_point with
  | .ok => .ok ()
  | .alreadyExists => .ok ()
  | .failed e =>
    .error (.MountPointCreationFailed
      ("Failed to create " ++ mount_point ++ ": " ++ e))

/-- Function `prepare_mount_entry`. -/
def prepare_mount_entry (env : Env) (device : String) (config : MountConfig) :
    Except MountError MountEntry := do
  if !rsStartsWith device "/dev/" then
    throw (.InvalidDevice device)
  let uuid ← device_uuid env device
  let device_name ← match (splitCharData '/' device.data).getLast? with
    | none => throw (.InvalidDevice device)
    | some n => pure (String.mk n)
  let mount_point := config.mount_base_path ++ "/" ++ device_name
  create_mount_point env mount_point
  pure { device := device
         uuid := uuid
         mount_point := mount_point
         filesystem := config.filesystem_type
         options := config.mount_options }

/-- Step 2 of `mount_devices_with_config`: the preparation loop.
A failed device is recorded as a failed `MountResult` and excluded from
the entry batch; the loop never aborts. -/
def prepare_all (env : Env) (config : MountConfig) :
    List String → List MountEntry × List MountResult
  | [] => ([], [])
  | device :: rest =>
    let tail := prepare_all env config rest
    match prepare_mount_entry env device config with
    | .ok entry =>
      (entry :: tail.1,
       { device := device
         mount_point := entry.mount_point
         success := true
         error_message := none } :: tail.2)
    | .error e =>
      (tail.1,
       { device := device
         mount_point := ""
         success := false
         error_message := some (errString e) } :: tail.2)

/-- Formatted fstab line `"{}  {}  {}    {}    0   0"` of
`update_fstab_safe`. -/
def formatFstabLine (entry : MountEntry) : String :=
  entry.uuid ++ "  " ++ entry.mount_point ++ "  " ++ entry.filesystem ++
    "    " ++ entry.options ++ "    0   0"

/-- Line rewriting inside `update_fstab_safe`: drop every current line
containing one of the new mount points, then append one formatted line per
entry. -/
def buildNewFstabLines (current_lines : List String)
    (mount_entries : List MountEntry) : List String :=
  let mount_points := mount_entries.map (fun e => e.mount_point)
  let kept := current_lines.filter
    (fun line => !(mount_points.any (fun mp => strContains line mp)))
  kept ++ mount_entries.map formatFstabLine

/-- Validation message `"Line {n}: Invalid fstab format, expected 6 fields,
got {k}"`. -/
def valMsg (line_num fields : Nat) : String :=
  "Line " ++ toString line_num ++
    ": Invalid fstab format, expected 6 fields, got " ++ toString fields

/-- Loop of `validate_fstab` over the enumerated lines, `idx` being the
zero-based index of the first list element. -/
def validateLinesFrom (idx : Nat) : List String → Except MountError Unit
  | [] => .ok ()
  | line :: rest =>
    let t := rsTrim line
    if t.isEmpty || rsStartsWith t "#" then validateLinesFrom (idx + 1) rest
    else
      let fields := rsSplitWhitespace t
      if fields.length ≠ 6 then
        .error (.ValidationFailed (valMsg (idx + 1) fields.length))
      else validateLinesFrom (idx + 1) rest

/-- Function `validate_fstab`. -/
def validate_fstab (fs : FS) (path : String) : Except MountError Unit :=
  match fsRead fs path with
  | none => .error (.IoError "open failed")
  | some content => validateLinesFrom 0 (rustLines content)

/-- Lines read back from the current mount table, a missing file reading
as empty (`if Path::new(fstab_path).exists()`). -/
def readFstabLines (fs : FS) (fstab_path : String) : List String :=
  if fsExists fs fstab_path then rustLines ((fsRead fs fstab_path).getD "")
  else []

/-- Function `update_fstab_safe`: rewrite the table into `{path}.tmp`,
optionally validate it, then atomically rename it over the original.  The
returned state includes the temporary file when the rename was not
reached. -/
def update_fstab_safe (fs : FS) (fstab_path : String)
    (mount_entries : List MountEntry) (config : MountConfig) :
    Except MountError Unit × FS :=
  let temp_path := fstab_path ++ ".tmp"
  let current_lines := readFstabLines fs fstab_path
  let new_lines := buildNewFstabLines current_lines mount_entries
  let fs1 := fsWrite fs temp_path (writeLines new_lines)
  if config.validate_before_write then
    match validate_fstab fs1 temp_path with
    | .error e => (.error e, fs1)
    | .ok () => (.ok (), fsRename fs1 temp_path fstab_path)
  else (.ok (), fsRename fs1 temp_path fstab_path)

/-- Function `apply_mounts`: `sudo mount -a`. -/
def apply_mounts (env : Env) : Except MountError Unit :=
  match env.mountAll with
  | none => .error (.IoError "spawn failed")
  | some out =>
    if !out.success then .error (.CommandFailed out.stderr) else .ok ()

/-- Function `mount_devices_with_config`: backup, prepare, rewrite, apply,
with best-effort rollback from the backup on rewrite or apply failure. -/
def mount_devices_with_config (env : Env) (fs : FS) (devices : List String)
    (config : MountConfig) : Except MountError (List MountResult) × FS :=
  match (if config.backup_fstab then
           (create_fstab_backup fs fstabPath env.timestamp).map
             (fun pr => (some pr.1, pr.2))
         else .ok (none, fs)) with
  | .error e => (.error e, fs)
  | .ok (backup_path, fs1) =>
    let prepared := prepare_all env config devices
    let mount_entries := prepared.1
    let results := prepared.2
    if mount_entries.isEmpty then (.ok results, fs1)
    else
      match update_fstab_safe fs1 fstabPath mount_entries config with
      | (.ok (), fs2) =>
        match apply_mounts env with
        | .ok () => (.ok results, fs2)
        | .error e =>
          match backup_path with
          | some b => (.error e, (restore_fstab_backup fs2 fstabPath b).2)
          | none => (.error e, fs2)
      | (.error e, fs2) =>
        match backup_path with
        | some b => (.error e, (restore_fstab_backup fs2 fstabPath b).2)
        | none => (.error e, fs2)

/-- Function `mount_devices` (default configuration). -/
def mount_devices (env : Env) (fs : FS) (devices : List String) :
    Except MountError (List MountResult) × FS :=
  mount_devices_with_config env fs devices MountConfig.default

end mount_manager

/-! ### `device_filter.rs` -/

namespace device_filter

/-- Error type `DeviceFilterError`. -/
inductive DeviceFilterError where
  | CommandFailed : String → DeviceFilterError
  | InvalidOutputFormat : DeviceFilterError
  | SystemInfoError : DeviceFilterError
  | IoError : String → DeviceFilterError
deriving DecidableEq, Repr

/-- Struct `DeviceInfo`. -/
structure DeviceInfo where
  path : String
  is_rotational : Bool
  is_mounted : Bool
deriving DecidableEq, Repr

/-- Function `is_rotational_device`: run `lsblk -d -o rota DEV`, require a
header line plus a data line, and read rotationality off the data line. -/
def is_rotational_device (env : Env) (device : String) :
    Except DeviceFilterError Bool :=
  match env.lsblkRota device with
  | none => .error (.IoError "spawn failed")
  | some out =>
    if !out.success then .error (.CommandFailed out.stderr)
    else
      match rustLines out.stdout with
      | _ :: second :: _ => .ok (rsTrim second = "1")
      | _ => .error .InvalidOutputFormat

/-- Mount-state test of `is_device_mounted`: the device counts as mounted
when any live disk name contains the device path as a substring. -/
def devMounted (disks : List String) (device : String) : Bool :=
  disks.any (fun disk_name => strContains disk_name device)

/-- Function `is_device_mounted`. -/
def is_device_mounted (device : String) (disks : List String) :
    Except DeviceFilterError Bool :=
  .ok (devMounted disks device)

/-- Function `collect_device_infos`: probe every device in order,
aborting on the first probe failure. -/
def collect_device_infos (env : Env) :
    List String → Except DeviceFilterError (List DeviceInfo)
  | [] => .ok []
  | device :: rest =>
    match is_rotational_device env device with
    | .error e => .error e
    | .ok rot =>
      match is_device_mounted device env.disks with
      | .error e => .error e
      | .ok mnt =>
        match collect_device_infos env rest with
        | .error e => .error e
        | .ok tail =>
          .ok ({ path := device, is_rotational := rot, is_mounted := mnt }
            :: tail)

/-- Function `filter_unmounted_hdd_devices`. -/
def filter_unmounted_hdd_devices (env : Env) (devices : List String) :
    Except DeviceFilterError (List String) :=
  match collect_device_infos env devices with
  | .error e => .error e
  | .ok device_infos =>
    .ok ((device_infos.filter
      (fun info => info.is_rotational && !info.is_mounted)).map
        (fun info => info.path))

end device_filter

/-! ### `partition_manager.rs` -/

namespace partition_manager

/-- Error type `PartitionError`. -/
inductive PartitionError where
  | CommandFailed : String → PartitionError
  | IoError : String → PartitionError
  | ProcessSpawnFailed : PartitionError
  | InvalidDevicePath : String → PartitionError
  | PartitionCreationFailed : String → PartitionError
deriving DecidableEq, Repr

/-- Function `validate_device_path`: require the `/dev/` prefix, then the
`/dev/sd` prefix together with byte length exactly 8. -/
def validate_device_path (device : String) : Except PartitionError Unit :=
  if !rsStartsWith device "/dev/" then .error (.InvalidDevicePath device)
  else if rsStartsWith device "/dev/sd" && device.utf8ByteSize = 8 then .ok ()
  else .error (.InvalidDevicePath device)

/-- Function `create_single_partition_parted`: validate the path, run
`parted -s DEV mkpart primary ext4 0% 100%`, return `DEV ++ "1"`. -/
def create_single_partition_parted (env : Env) (device : String) :
    Except PartitionError String :=
  match validate_device_path device with
  | .error e => .error e
  | .ok () =>
    match env.partedMkpart device with
    | none => .error (.IoError "spawn failed")
    | some out =>
      if !out.success then .error (.CommandFailed out.stderr)
      else .ok (device ++ "1")

/-- Function `create_partition`: one partition per device, aborting the
batch on the first failure. -/
def create_partition (env : Env) :
    List String → Except PartitionError (List String)
  | [] => .ok []
  | device :: rest =>
    match create_single_partition_parted env device with
    | .error e => .error e
    | .ok partition_path =>
      match create_partition env rest with
      | .error e => .error e
      | .ok tail => .ok (partition_path :: tail)

/-- Function `change_single_device_to_gpt`: validate the path then run
`parted -s DEV mklabel gpt`. -/
def change_single_device_to_gpt (env : Env) (device : String) :
    Except PartitionError Unit :=
  match validate_device_path device with
  | .error e => .error e
  | .ok () =>
    match env.partedMklabel device with
    | none => .error (.IoError "spawn failed")
    | some out =>
      if !out.success then .error (.CommandFailed out.stderr)
      else .ok ()

/-- Function `change_devices_to_gpt`. -/
def change_devices_to_gpt (env : Env) :
    List String → Except PartitionError Unit
  | [] => .ok ()
  | device :: rest =>
    match change_single_device_to_gpt env device with
    | .error e => .error e
    | .ok () => change_devices_to_gpt env rest

end partition_manager

/-! ### `filesystem.rs` -/

namespace filesystem

/-- Error type `FilesystemError`. -/
inductive FilesystemError where
  | CommandFailed : String → FilesystemError
  | IoError : String → FilesystemError
  | UnsupportedFilesystem : String → FilesystemError
  | InvalidDevice : String → FilesystemError
  | FormatFailed : String → FilesystemError
deriving DecidableEq, Repr

/-- Enum `FilesystemType`. -/
inductive FilesystemType where
  | Ext4 | Ext3 | Ext2 | Xfs | Btrfs | Ntfs | Fat32
deriving DecidableEq, Repr

/-- Method `get_format_command`: formatting command name and fixed
arguments per filesystem type. -/
def get_format_command : FilesystemType → String × List String
  | .Ext4 => ("mkfs.ext4", ["-F"])
  | .Ext3 => ("mkfs.ext3", ["-F"])
  | .Ext2 => ("mkfs.ext2", ["-F"])
  | .Xfs => ("mkfs.xfs", ["-f"])
  | .Btrfs => ("mkfs.btrfs", ["-f"])
  | .Ntfs => ("mkfs.ntfs", ["-f", "-Q"])
  | .Fat32 => ("mkfs.fat", ["-F", "32"])

/-- Validation of `filesystem.rs` (only the `/dev/` prefix). -/
def validate_device_path (device : String) : Except FilesystemError Unit :=
  if !rsStartsWith device "/dev/" then .error (.InvalidDevice device)
  else .ok ()

/-- Function `format_single_device`. -/
def format_single_device (env : Env) (device : String)
    (filesystem : FilesystemType) : Except FilesystemError Unit :=
  match validate_device_path device with
  | .error e => .error e
  | .ok () =>
    match env.mkfsRun (get_format_command filesystem).1 device with
    | none => .error (.IoError "spawn failed")
    | some out =>
      if !out.success then
        .error (.FormatFailed
          ("Device: " ++ device ++ ", Error: " ++ out.stderr))
      else .ok ()

/-- Function `format_devices_with_type`. -/
def format_devices_with_type (env : Env) (filesystem : FilesystemType) :
    List String → Except FilesystemError Unit
  | [] => .ok ()
  | device :: rest =>
    match format_single_device env device filesystem with
    | .error e => .error e
    | .ok () => format_devices_with_type env filesystem rest

/-- Function `format_devices` (ext4 compatibility entry point). -/
def format_devices (env : Env) (devices : List String) :
    Except FilesystemError Unit :=
  format_devices_with_type env .Ext4 devices

end filesystem

/-! ### `device_discovery.rs` -/

namespace device_discovery

/-- Error type `DeviceDiscoveryError`. -/
inductive DeviceDiscoveryError where
  | CommandFailed : String → DeviceDiscoveryError
  | PermissionDenied : DeviceDiscoveryError
  | InvalidUtf8 : DeviceDiscoveryError
  | IoError : String → DeviceDiscoveryError
  | DevDirectoryNotFound : DeviceDiscoveryError
  | NoDevicesFound : DeviceDiscoveryError
deriving DecidableEq, Repr

/-- Function `find_devices_via_sysblock`: keep `/sys/block` entries whose
name is `sd` plus one byte and whose `/dev` node exists; sort; fail when
none remain. -/
def find_devices_via_sysblock (env : Env) :
    Except DeviceDiscoveryError (List String) :=
  match env.sysblock with
  | none => .error (.IoError "read_dir failed")
  | some entries =>
    let devices := entries.foldl
      (fun acc name =>
        if rsStartsWith name "sd" && name.utf8ByteSize = 3 then
          let device_path := "/dev/" ++ name
          if env.devExists device_path then acc ++ [device_path] else acc
        else acc) []
    let devices := sortStrings devices
    if devices.isEmpty then .error .NoDevicesFound else .ok devices

/-- Function `process_find_output`. -/
def process_find_output (out : CmdOut) :
    Except DeviceDiscoveryError (List String) :=
  if !out.success then .error (.CommandFailed out.stderr)
  else
    let devices := (rustLines out.stdout).filter (fun line => !line.isEmpty)
    let devices := sortStrings devices
    if devices.isEmpty then .error .NoDevicesFound else .ok devices

/-- Function `try_find_without_sudo`. -/
def try_find_without_sudo (env : Env) :
    Except DeviceDiscoveryError (List String) :=
  match env.findCmd with
  | none => .error (.IoError "spawn failed")
  | some out => process_find_output out

/-- Function `try_find_with_sudo`. -/
def try_find_with_sudo (env : Env) :
    Except DeviceDiscoveryError (List String) :=
  match env.findCmdSudo with
  | none => .error (.IoError "spawn failed")
  | some out => process_find_output out

/-- Function `find_devices_via_find_command`. -/
def find_devices_via_find_command (env : Env) :
    Except DeviceDiscoveryError (List String) :=
  match try_find_without_sudo env with
  | .ok devices => .ok devices
  | .error _ => try_find_with_sudo env

/-- Function `find_connected_satas`. -/
def find_connected_satas (env : Env) :
    Except DeviceDiscoveryError (List String) :=
  if !env.devDirExists then .error .DevDirectoryNotFound
  else
    match find_devices_via_sysblock env with
    | .ok devices =>
      if !devices.isEmpty then .ok devices
      else find_devices_via_find_command env
    | .error _ => find_devices_via_find_command env

end device_discovery

/-! ### `smart_mount.rs` -/

namespace smart_mount

/-- Error type `SmartMountError`.  Note: it has no constructor embedding a
`mount_manager.MountError`. -/
inductive SmartMountError where
  | DeviceDiscovery : device_discovery.DeviceDiscoveryError → SmartMountError
  | DeviceFilter : device_filter.DeviceFilterError → SmartMountError
  | Partition : partition_manager.PartitionError → SmartMountError
  | Filesystem : filesystem.FilesystemError → SmartMountError
  | NoDevicesFound : SmartMountError
deriving DecidableEq, Repr

/-- Struct `MountConfig` of `smart_mount.rs`. -/
structure MountConfig where
  force_gpt : Bool
  gpt_threshold_gb : Nat
  skip_gpt : Bool
deriving DecidableEq, Repr

/-- Impl `Default for MountConfig`. -/
def MountConfig.default : MountConfig :=
  { force_gpt := false, gpt_threshold_gb := 2000, skip_gpt := false }

/-- Function `get_device_size_gb`: run `blockdev --getsize64 DEV`; a
non-zero exit yields size 0; otherwise parse the byte count (defaulting to
0) and divide by `2 ^ 30`. -/
def get_device_size_gb (env : Env) (device : String) :
    Except SmartMountError Nat :=
  match env.blockdevSize device with
  | none => .error (.Partition (.IoError "spawn failed"))
  | some out =>
    if !out.success then .ok 0
    else .ok ((parseU64 (rsTrim out.stdout)).getD 0 / (1024 * 1024 * 1024))

/-- Function `should_use_gpt`: `skip_gpt` wins, then `force_gpt`, then the
size scan in which a device whose size query returns `Err` is skipped. -/
def should_use_gpt (env : Env) (devices : List String)
    (config : MountConfig) : Except SmartMountError Bool :=
  if config.skip_gpt then .ok false
  else if config.force_gpt then .ok true
  else
    .ok (devices.any (fun device =>
      match get_device_size_gb env device with
      | .ok size_gb => size_gb ≥ config.gpt_threshold_gb
      | .error _ => false))

/-- Function `smart_auto_mount_with_config`: the orchestrator pipeline.
The `Result` of the final `mount_devices` call is discarded; only its
file-system effect survives. -/
def smart_auto_mount_with_config (env : Env) (fs : FS)
    (config : MountConfig) : Except SmartMountError Unit × FS :=
  match device_discovery.find_connected_satas env with
  | .error e => (.error (.DeviceDiscovery e), fs)
  | .ok devices =>
    if devices.isEmpty then (.error .NoDevicesFound, fs)
    else
      match device_filter.filter_unmounted_hdd_devices env devices with
      | .error e => (.error (.DeviceFilter e), fs)
      | .ok devices =>
        if devices.isEmpty then (.error .NoDevicesFound, fs)
        else
          match should_use_gpt env devices config with
          | .error e => (.error e, fs)
          | .ok use_gpt =>
            match (if use_gpt then partition_manager.change_devices_to_gpt env devices
                   else .ok ()) with
            | .error e => (.error (.Partition e), fs)
            | .ok () =>
              match partition_manager.create_partition env devices with
              | .error e => (.error (.Partition e), fs)
              | .ok devices =>
                match filesystem.format_devices env devices with
                | .error e => (.error (.Filesystem e), fs)
                | .ok () =>
                  (.ok (), (mount_manager.mount_devices env fs devices).2)

end smart_mount

/-! ### Derived predicates used in claim statements -/

namespace mount_manager

/-- A mount-table line the validator must reject: non-blank, non-comment,
and not exactly 6 whitespace-separated fields. -/
def isBadLine (line : String) : Bool :=
  let t := rsTrim line
  !(t.isEmpty || rsStartsWith t "#") && ((rsSplitWhitespace t).length != 6)

end mount_manager

/-- Line shape preserved by a write/read round trip through the mount
table file: no embedded newline and no trailing carriage return. -/
def goodLine (l : String) : Prop :=
  '\n' ∉ l.data ∧ l.data.getLast? ≠ some '\r'

instance (l : String) : Decidable (goodLine l) :=
  inferInstanceAs (Decidable (_ ∧ _))

namespace device_filter

/-- Rotationality the probe reports for a device (a failed probe reading
as `false`); meaningful on runs in which every probe succeeded. -/
def reportedRotational (env : Env) (device : String) : Bool :=
  match is_rotational_device env device with
  | .ok b => b
  | .error _ => false

end device_filter

namespace smart_mount

/-- Spec-side reading of claim C5: the capacity in bytes attributed to a
device, a failed capacity query being treated as size 0. -/
def capacityBytesSpec (env : Env) (device : String) : Nat :=
  match env.blockdevSize device with
  | none => 0
  | some out =>
    if out.success then (parseU64 (rsTrim out.stdout)).getD 0 else 0

end smart_mount

/-! ### Concrete instances used as witnesses -/

/-- Environment in which every external command succeeds: one SATA disk
`sda`, rotational, unmounted, with a well-formed UUID. -/
def envOk : Env where
  timestamp := 0
  devDirExists := true
  sysblock := some ["sda"]
  devExists := fun p => p = "/dev/sda"
  findCmd := none
  findCmdSudo := none
  lsblkRota := fun _ => some { success := true, stdout := "ROTA\n1\n", stderr := "" }
  disks := []
  blockdevSize := fun _ => some { success := true, stdout := "0", stderr := "" }
  partedMklabel := fun _ => some { success := true, stdout := "", stderr := "" }
  partedMkpart := fun _ => some { success := true, stdout := "", stderr := "" }
  mkfsRun := fun _ _ => some { success := true, stdout := "", stderr := "" }
  blkid := fun _ => some { success := true, stdout := "UUID=abc\n", stderr := "" }
  mkdir := fun _ => .ok
  mountAll := some { success := true, stdout := "", stderr := "" }

/-- Variant of `envOk` whose `blkid` emits a UUID line containing a space,
so the formatted fstab line has more than 6 fields. -/
def envBadUuid : Env :=
  { envOk with blkid := fun _ => some { success := true, stdout := "UUID=a b\n", stderr := "" } }

/-- Variant of `envOk` in which `mount -a` exits non-zero. -/
def envMountFails : Env :=
  { envOk with mountAll := some { success := false, stdout := "", stderr := "mount failed" } }

/-- Variant of `envOk` in which `blkid` exits non-zero for every device,
so no mount entry can be prepared. -/
def envBlkidFails : Env :=
  { envOk with blkid := fun _ => some { success := false, stdout := "", stderr := "blkid failed" } }

/-- Variant of `envOk` in which `blkid` exits non-zero for `/dev/sda1`
only, so exactly that device's mount entry cannot be prepared. -/
def envBlkidOneFails : Env :=
  { envOk with blkid := fun d =>
      if d = "/dev/sda1" then some { success := false, stdout := "", stderr := "blkid failed" }
      else some { success := true, stdout := "UUID=abc\n", stderr := "" } }

/-- Variant of `envOk` in which `sdb` reports non-rotational and `sdc` is
currently mounted. -/
def envMixedDisks : Env :=
  { envOk with
    lsblkRota := fun d =>
      if d = "/dev/sdb" then some { success := true, stdout := "ROTA\n0\n", stderr := "" }
      else some { success := true, stdout := "ROTA\n1\n", stderr := "" }
    disks := ["/dev/sdc"] }

/-- Variant of `envOk` in which the rotational query for `sdb` fails. -/
def envProbeFails : Env :=
  { envOk with
    lsblkRota := fun d =>
      if d = "/dev/sdb" then some { success := false, stdout := "", stderr := "lsblk failed" }
      else some { success := true, stdout := "ROTA\n1\n", stderr := "" } }

/-- Variant of `envOk` in which the capacity query process cannot be
started at all. -/
def envSizeSpawnFails : Env :=
  { envOk with blockdevSize := fun _ => none }

/-- Variant of `envOk` reporting a 3 TiB capacity (3072 GiB). -/
def envBigDisk : Env :=
  { envOk with blockdevSize := fun _ => some { success := true, stdout := "3298534883328", stderr := "" } }

/-- Mount table file holding an empty `/etc/fstab`. -/
def fsEmptyTab : FS := [("/etc/fstab", "")]

/-- Mount table file holding one comment line. -/
def fsCommentTab : FS := [("/etc/fstab", "# static file system information\n")]

/-! ### Generic lemmas -/

theorem listIsPrefix_iff (p l : List Char) :
    listIsPrefix p l = true ↔ p <+: l := by
  induction p generalizing l with
  | nil => simp [listIsPrefix]
  | cons a as ih =>
    cases l with
    | nil => simp [listIsPrefix]
    | cons b bs =>
      rw [List.cons_prefix_cons, listIsPrefix]
      rw [Bool.and_eq_true, decide_eq_true_iff, ih]

theorem stringMk_data (s : String) : String.mk s.data = s := by
  cases s
  rfl

theorem fsRead_fsWrite_self (fs : FS) (p c : String) :
    fsRead (fsWrite fs p c) p = some c := by
  simp [fsRead, fsWrite, List.find?]

theorem fsRead_fsWrite_ne (fs : FS) (p c q : String) (h : q ≠ p) :
    fsRead (fsWrite fs p c) q = fsRead fs q := by
  unfold fsRead fsWrite
  rw [List.find?_cons_of_neg _ (by simpa using Ne.symm h)]
  congr 1
  induction fs with
  | nil => rfl
  | cons kv rest ih =>
    by_cases hkv : kv.1 = p
    · rw [List.filter_cons_of_neg (by simpa using hkv),
          List.find?_cons_of_neg _ (by simp [hkv]; exact fun he => h he.symm)]
      exact ih
    · rw [List.filter_cons_of_pos (by simpa using hkv)]
      by_cases hq : kv.1 = q
      · rw [List.find?_cons_of_pos _ (by simpa using hq),
            List.find?_cons_of_pos _ (by simpa using hq)]
      · rw [List.find?_cons_of_neg _ (by simpa using hq),
            List.find?_cons_of_neg _ (by simpa using hq)]
        exact ih

theorem fsRead_fsErase_ne (fs : FS) (p q : String) (h : q ≠ p) :
    fsRead (fsErase fs p) q = fsRead fs q := by
  unfold fsRead fsErase
  congr 1
  induction fs with
  | nil => rfl
  | cons kv rest ih =>
    by_cases hkv : kv.1 = p
    · rw [List.filter_cons_of_neg (by simpa using hkv),
          List.find?_cons_of_neg _ (by simp [hkv]; exact fun he => h he.symm)]
      exact ih
    · rw [List.filter_cons_of_pos (by simpa using hkv)]
      by_cases hq : kv.1 = q
      · rw [List.find?_cons_of_pos _ (by simpa using hq),
            List.find?_cons_of_pos _ (by simpa using hq)]
      · rw [List.find?_cons_of_neg _ (by simpa using hq),
            List.find?_cons_of_neg _ (by simpa using hq)]
        exact ih

theorem fsRead_fsRename_other (fs : FS) (src dst q : String)
    (h1 : q ≠ src) (h2 : q ≠ dst) :
    fsRead (fsRename fs src dst) q = fsRead fs q := by
  unfold fsRename
  cases hr : fsRead fs src with
  | none => rfl
  | some c =>
    rw [fsRead_fsWrite_ne _ _ _ _ h2, fsRead_fsErase_ne _ _ _ h1]

theorem fsRead_fsRename_dst (fs : FS) (src dst : String) (c : String)
    (h : fsRead fs src = some c) :
    fsRead (fsRename fs src dst) dst = some c := by
  unfold fsRename
  rw [h, fsRead_fsWrite_self]

namespace mount_manager

theorem backupPath_ne_fstabPath (ts : Nat) :
    backupPath fstabPath ts ≠ fstabPath := by
  intro h
  have hl := congrArg String.length h
  rw [backupPath, String.length_append] at hl
  have h18 : (fstabPath ++ ".backup.").length = 18 := by decide
  have h10 : fstabPath.length = 10 := by decide
  rw [h18, h10] at hl
  omega

theorem backupPath_ne_tmpPath (ts : Nat) :
    backupPath fstabPath ts ≠ fstabPath ++ ".tmp" := by
  intro h
  have hl := congrArg String.length h
  rw [backupPath, String.length_append] at hl
  have h18 : (fstabPath ++ ".backup.").length = 18 := by decide
  have h14 : (fstabPath ++ ".tmp").length = 14 := by decide
  rw [h18, h14] at hl
  omega

theorem tmpPath_ne_fstabPath : fstabPath ++ ".tmp" ≠ fstabPath := by
  decide

theorem create_fstab_backup_ok (fs : FS) (ts : Nat) (c : String)
    (h : fsRead fs fstabPath = some c) :
    create_fstab_backup fs fstabPath ts =
      .ok (backupPath fstabPath ts, fsWrite fs (backupPath fstabPath ts) c) := by
  unfold create_fstab_backup
  rw [h]
  simp only [fsRead_fsWrite_self,
    fsRead_fsWrite_ne _ _ _ _ (Ne.symm (backupPath_ne_fstabPath ts)), h]
  simp

theorem readFstabLines_write_other (fs : FS) (p q c : String) (h : q ≠ p) :
    readFstabLines (fsWrite fs p c) q = readFstabLines fs q := by
  unfold readFstabLines fsExists
  rw [fsRead_fsWrite_ne _ _ _ _ h]

theorem update_fstab_safe_frame (fs : FS) (p : String)
    (es : List MountEntry) (cfg : MountConfig) (q : String)
    (hq1 : q ≠ p) (hq2 : q ≠ p ++ ".tmp") :
    fsRead (update_fstab_safe fs p es cfg).2 q = fsRead fs q := by
  have hw : ∀ c : String, fsRead (fsWrite fs (p ++ ".tmp") c) q = fsRead fs q :=
    fun c => fsRead_fsWrite_ne _ _ _ _ hq2
  have hren : ∀ c : String,
      fsRead (fsRename (fsWrite fs (p ++ ".tmp") c) (p ++ ".tmp") p) q = fsRead fs q := by
    intro c
    rw [fsRead_fsRename_other _ _ _ _ hq2 hq1]
    exact hw c
  simp only [update_fstab_safe]
  split
  · split
    · exact hw _
    · exact hren _
  · exact hren _

theorem update_fstab_safe_ok_content (fs fs' : FS) (p : String)
    (es : List MountEntry) (cfg : MountConfig)
    (h : update_fstab_safe fs p es cfg = (.ok (), fs')) :
    fsRead fs' p =
      some (writeLines (buildNewFstabLines (readFstabLines fs p) es)) := by
  have hren : ∀ c : String,
      fsRead (fsRename (fsWrite fs (p ++ ".tmp") c) (p ++ ".tmp") p) p = some c := by
    intro c
    exact fsRead_fsRename_dst _ _ _ _ (fsRead_fsWrite_self _ _ _)
  simp only [update_fstab_safe] at h
  split at h
  · split at h
    · exact absurd (congrArg Prod.fst h) (by simp)
    · rw [Prod.mk.injEq] at h
      rw [← h.2]
      exact hren _
  · rw [Prod.mk.injEq] at h
    rw [← h.2]
    exact hren _

theorem update_fstab_safe_err (fs : FS) (p : String) (es : List MountEntry)
    (cfg : MountConfig) (e : MountError)
    (hval : cfg.validate_before_write = true)
    (hv : validate_fstab
        (fsWrite fs (p ++ ".tmp")
          (writeLines (buildNewFstabLines (readFstabLines fs p) es)))
        (p ++ ".tmp") = .error e) :
    update_fstab_safe fs p es cfg =
      (.error e,
       fsWrite fs (p ++ ".tmp")
         (writeLines (buildNewFstabLines (readFstabLines fs p) es))) := by
  simp only [update_fstab_safe, hval, if_true]
  rw [hv]

theorem validate_fstab_write (fs : FS) (path c : String) :
    validate_fstab (fsWrite fs path c) path = validateLinesFrom 0 (rustLines c) := by
  unfold validate_fstab
  rw [fsRead_fsWrite_self]

theorem validateLinesFrom_err (L : List String) (k : Nat)
    (hbad : ∃ l ∈ L, isBadLine l = true) :
    ∃ i l, L.get? i = some l ∧ isBadLine l = true ∧
      validateLinesFrom k L =
        .error (.ValidationFailed
          (valMsg (k + i + 1) (rsSplitWhitespace (rsTrim l)).length)) := by
  induction L generalizing k with
  | nil => simp at hbad
  | cons a L ih =>
    by_cases hskip : ((rsTrim a).isEmpty || rsStartsWith (rsTrim a) "#") = true
    · have hna : isBadLine a = false := by
        unfold isBadLine
        simp [hskip]
      have hbad' : ∃ l ∈ L, isBadLine l = true := by
        rcases hbad with ⟨l, hl, hbadl⟩
        rcases List.mem_cons.mp hl with rfl | hl'
        · rw [hna] at hbadl; exact absurd hbadl (by simp)
        · exact ⟨l, hl', hbadl⟩
      rcases ih (k + 1) hbad' with ⟨i, l, hget, hb, hval⟩
      refine ⟨i + 1, l, by simpa using hget, hb, ?_⟩
      simp only [validateLinesFrom, hskip, if_true]
      rw [hval]
      rw [show k + 1 + i + 1 = k + (i + 1) + 1 from by omega]
    · by_cases hlen : (rsSplitWhitespace (rsTrim a)).length = 6
      · have hna : isBadLine a = false := by
          unfold isBadLine
          simp [hskip, hlen]
        have hbad' : ∃ l ∈ L, isBadLine l = true := by
          rcases hbad with ⟨l, hl, hbadl⟩
          rcases List.mem_cons.mp hl with rfl | hl'
          · rw [hna] at hbadl; exact absurd hbadl (by simp)
          · exact ⟨l, hl', hbadl⟩
        rcases ih (k + 1) hbad' with ⟨i, l, hget, hb, hval⟩
        refine ⟨i + 1, l, by simpa using hget, hb, ?_⟩
        simp only [validateLinesFrom, hskip, if_false, Bool.false_eq_true]
        rw [if_neg (by simp [hlen]), hval]
        rw [show k + 1 + i + 1 = k + (i + 1) + 1 from by omega]
      · refine ⟨0, a, rfl, ?_, ?_⟩
        · unfold isBadLine
          simp [hskip, hlen]
        · simp only [validateLinesFrom, hskip, if_false, Bool.false_eq_true]
          rw [if_pos (by simp [hlen])]

end mount_manager

namespace mount_manager

theorem mount_devices_with_config_update_err
    (env : Env) (fs0 fs1 fs2 : FS) (devices : List String)
    (config : MountConfig) (bp : Option String) (e : MountError)
    (hback : (if config.backup_fstab then
          (create_fstab_backup fs0 fstabPath env.timestamp).map
            (fun pr => (some pr.1, pr.2))
        else .ok (none, fs0)) = .ok (bp, fs1))
    (hne : (prepare_all env config devices).1.isEmpty = false)
    (hup : update_fstab_safe fs1 fstabPath
        (prepare_all env config devices).1 config = (.error e, fs2)) :
    mount_devices_with_config env fs0 devices config =
      (.error e,
        match bp with
        | some b => (restore_fstab_backup fs2 fstabPath b).2
        | none => fs2) := by
  simp only [mount_devices_with_config, hback, hne, Bool.false_eq_true,
    if_false, hup]
  cases bp <;> rfl

theorem mount_devices_with_config_apply_err
    (env : Env) (fs0 fs1 fs2 : FS) (devices : List String)
    (config : MountConfig) (bp : Option String) (e : MountError)
    (hback : (if config.backup_fstab then
          (create_fstab_backup fs0 fstabPath env.timestamp).map
            (fun pr => (some pr.1, pr.2))
        else .ok (none, fs0)) = .ok (bp, fs1))
    (hne : (prepare_all env config devices).1.isEmpty = false)
    (hup : update_fstab_safe fs1 fstabPath
        (prepare_all env config devices).1 config = (.ok (), fs2))
    (happ : apply_mounts env = .error e) :
    mount_devices_with_config env fs0 devices config =
      (.error e,
        match bp with
        | some b => (restore_fstab_backup fs2 fstabPath b).2
        | none => fs2) := by
  simp only [mount_devices_with_config, hback, hne, Bool.false_eq_true,
    if_false, hup, happ]
  cases bp <;> rfl

theorem mount_devices_with_config_no_entries
    (env : Env) (fs0 fs1 : FS) (devices : List String)
    (config : MountConfig) (bp : Option String)
    (hback : (if config.backup_fstab then
          (create_fstab_backup fs0 fstabPath env.timestamp).map
            (fun pr => (some pr.1, pr.2))
        else .ok (none, fs0)) = .ok (bp, fs1))
    (hemp : (prepare_all env config devices).1.isEmpty = true) :
    mount_devices_with_config env fs0 devices config =
      (.ok (prepare_all env config devices).2, fs1) := by
  simp only [mount_devices_with_config, hback, hemp, if_true]

end mount_manager

namespace mount_manager

/-- C1: for every device list and configuration with
`validate_before_write` enabled, if the freshly built temporary
mount-table content contains a non-comment, non-blank line that does not
split into exactly 6 whitespace-separated fields, then
`mount_devices_with_config` fails with a `ValidationFailed` error naming
the offending 1-based line number and its field count, the atomic rename
over the table is never performed, and the mount table file has the same
byte content before and after the call. -/
theorem C1_validation_failure_preserves_table
    (env : Env) (fs0 : FS) (devices : List String) (config : MountConfig)
    (hval : config.validate_before_write = true)
    (hbk : config.backup_fstab = true → fsExists fs0 fstabPath = true)
    (hne : (prepare_all env config devices).1 ≠ [])
    (hbad : ∃ l ∈ rustLines (writeLines (buildNewFstabLines
        (readFstabLines fs0 fstabPath)
        (prepare_all env config devices).1)), isBadLine l = true) :
    ∃ i l,
      (rustLines (writeLines (buildNewFstabLines
        (readFstabLines fs0 fstabPath)
        (prepare_all env config devices).1))).get? i = some l ∧
      isBadLine l = true ∧
      (mount_devices_with_config env fs0 devices config).1 =
        .error (.ValidationFailed
          (valMsg (i + 1) (rsSplitWhitespace (rsTrim l)).length)) ∧
      fsRead (mount_devices_with_config env fs0 devices config).2 fstabPath =
        fsRead fs0 fstabPath := by
  obtain ⟨i, l, hget, hb, hvlf⟩ := validateLinesFrom_err _ 0 hbad
  rw [show 0 + i + 1 = i + 1 from by omega] at hvlf
  have hnef : (prepare_all env config devices).1.isEmpty = false := by
    cases hp : (prepare_all env config devices).1 with
    | nil => exact absurd hp hne
    | cons a t => rfl
  by_cases hbf : config.backup_fstab = true
  · have hex := hbk hbf
    obtain ⟨c0, hc0⟩ : ∃ c0, fsRead fs0 fstabPath = some c0 := by
      rw [fsExists] at hex
      exact Option.isSome_iff_exists.mp hex
    have hback : (if config.backup_fstab then
          (create_fstab_backup fs0 fstabPath env.timestamp).map
            (fun pr => (some pr.1, pr.2))
        else .ok (none, fs0)) =
        .ok (some (backupPath fstabPath env.timestamp),
             fsWrite fs0 (backupPath fstabPath env.timestamp) c0) := by
      rw [if_pos hbf, create_fstab_backup_ok fs0 env.timestamp c0 hc0]
      rfl
    have hrd : readFstabLines
        (fsWrite fs0 (backupPath fstabPath env.timestamp) c0) fstabPath =
        readFstabLines fs0 fstabPath :=
      readFstabLines_write_other _ _ _ _
        (Ne.symm (backupPath_ne_fstabPath _))
    have hv : validate_fstab
        (fsWrite (fsWrite fs0 (backupPath fstabPath env.timestamp) c0)
          (fstabPath ++ ".tmp")
          (writeLines (buildNewFstabLines
            (readFstabLines
              (fsWrite fs0 (backupPath fstabPath env.timestamp) c0)
              fstabPath)
            (prepare_all env config devices).1)))
        (fstabPath ++ ".tmp") =
        .error (.ValidationFailed
          (valMsg (i + 1) (rsSplitWhitespace (rsTrim l)).length)) := by
      rw [validate_fstab_write, hrd]
      exact hvlf
    have hup := update_fstab_safe_err
      (fsWrite fs0 (backupPath fstabPath env.timestamp) c0) fstabPath
      (prepare_all env config devices).1 config _ hval hv
    have hcall := mount_devices_with_config_update_err env fs0 _ _
      devices config (some (backupPath fstabPath env.timestamp)) _
      hback hnef hup
    refine ⟨i, l, hget, hb, ?_, ?_⟩
    · rw [hcall]
    · rw [hcall]
      have hbpread : fsRead
          (fsWrite (fsWrite fs0 (backupPath fstabPath env.timestamp) c0)
            (fstabPath ++ ".tmp")
            (writeLines (buildNewFstabLines
              (readFstabLines
                (fsWrite fs0 (backupPath fstabPath env.timestamp) c0)
                fstabPath)
              (prepare_all env config devices).1)))
          (backupPath fstabPath env.timestamp) = some c0 := by
        rw [fsRead_fsWrite_ne _ _ _ _ (backupPath_ne_tmpPath _),
          fsRead_fsWrite_self]
      simp only [restore_fstab_backup, hbpread]
      rw [fsRead_fsWrite_self, hc0]
  · have hbf' : config.backup_fstab = false := by
      cases hcb : config.backup_fstab
      · rfl
      · exact absurd hcb hbf
    have hback : (if config.backup_fstab then
          (create_fstab_backup fs0 fstabPath env.timestamp).map
            (fun pr => (some pr.1, pr.2))
        else .ok (none, fs0)) = .ok (none, fs0) := by
      rw [if_neg (by simp [hbf'])]
    have hv : validate_fstab
        (fsWrite fs0 (fstabPath ++ ".tmp")
          (writeLines (buildNewFstabLines
            (readFstabLines fs0 fstabPath)
            (prepare_all env config devices).1)))
        (fstabPath ++ ".tmp") =
        .error (.ValidationFailed
          (valMsg (i + 1) (rsSplitWhitespace (rsTrim l)).length)) := by
      rw [validate_fstab_write]
      exact hvlf
    have hup := update_fstab_safe_err fs0 fstabPath
      (prepare_all env config devices).1 config _ hval hv
    have hcall := mount_devices_with_config_update_err env fs0 _ _
      devices config none _ hback hnef hup
    refine ⟨i, l, hget, hb, ?_, ?_⟩
    · rw [hcall]
    · rw [hcall]
      exact fsRead_fsWrite_ne _ _ _ _ (Ne.symm tmpPath_ne_fstabPath)

end mount_manager

namespace mount_manager

/-- Witness for C1 at a concrete input: one device whose UUID line
contains a space, producing a 7-field table line. -/
theorem C1_witness :
    ∃ i l,
      (rustLines (writeLines (buildNewFstabLines
        (readFstabLines fsEmptyTab fstabPath)
        (prepare_all envBadUuid MountConfig.default ["/dev/sda1"]).1))).get? i =
          some l ∧
      isBadLine l = true ∧
      (mount_devices_with_config envBadUuid fsEmptyTab ["/dev/sda1"]
          MountConfig.default).1 =
        .error (.ValidationFailed
          (valMsg (i + 1) (rsSplitWhitespace (rsTrim l)).length)) ∧
      fsRead (mount_devices_with_config envBadUuid fsEmptyTab ["/dev/sda1"]
          MountConfig.default).2 fstabPath =
        fsRead fsEmptyTab fstabPath :=
  C1_validation_failure_preserves_table envBadUuid fsEmptyTab ["/dev/sda1"]
    MountConfig.default rfl (fun _ => by decide) (by decide) (by decide)

end mount_manager

namespace mount_manager

/-- C2: when a backup was taken and either the table-rewrite step or the
apply step (`mount -a`) fails, `mount_devices_with_config` propagates that
step's own error unchanged and the mount table file is restored from the
backup, so its content after the call equals its content before the
call. -/
theorem C2_rollback_restores_table
    (env : Env) (fs0 fs2 : FS) (devices : List String)
    (config : MountConfig) (e : MountError) (c0 : String)
    (hbk : config.backup_fstab = true)
    (hc0 : fsRead fs0 fstabPath = some c0)
    (hne : (prepare_all env config devices).1 ≠ [])
    (hfail :
      update_fstab_safe (fsWrite fs0 (backupPath fstabPath env.timestamp) c0)
          fstabPath (prepare_all env config devices).1 config =
        (.error e, fs2) ∨
      (update_fstab_safe (fsWrite fs0 (backupPath fstabPath env.timestamp) c0)
          fstabPath (prepare_all env config devices).1 config =
        (.ok (), fs2) ∧
       apply_mounts env = .error e)) :
    (mount_devices_with_config env fs0 devices config).1 = .error e ∧
    fsRead (mount_devices_with_config env fs0 devices config).2 fstabPath =
      fsRead fs0 fstabPath := by
  have hnef : (prepare_all env config devices).1.isEmpty = false := by
    cases hp : (prepare_all env config devices).1 with
    | nil => exact absurd hp hne
    | cons a t => rfl
  have hback : (if config.backup_fstab then
        (create_fstab_backup fs0 fstabPath env.timestamp).map
          (fun pr => (some pr.1, pr.2))
      else .ok (none, fs0)) =
      .ok (some (backupPath fstabPath env.timestamp),
           fsWrite fs0 (backupPath fstabPath env.timestamp) c0) := by
    rw [if_pos hbk, create_fstab_backup_ok fs0 env.timestamp c0 hc0]
    rfl
  have hbpc0 : fsRead (fsWrite fs0 (backupPath fstabPath env.timestamp) c0)
      (backupPath fstabPath env.timestamp) = some c0 :=
    fsRead_fsWrite_self _ _ _
  have hrestore : ∀ hup : (update_fstab_safe
        (fsWrite fs0 (backupPath fstabPath env.timestamp) c0) fstabPath
        (prepare_all env config devices).1 config).2 = fs2,
      fsRead (restore_fstab_backup fs2 fstabPath
        (backupPath fstabPath env.timestamp)).2 fstabPath = some c0 := by
    intro hup
    have hfr : fsRead fs2 (backupPath fstabPath env.timestamp) = some c0 := by
      rw [← hup]
      rw [update_fstab_safe_frame _ _ _ _ _ (backupPath_ne_fstabPath _)
        (backupPath_ne_tmpPath _)]
      exact hbpc0
    simp only [restore_fstab_backup, hfr]
    exact fsRead_fsWrite_self _ _ _
  rcases hfail with hup | ⟨hup, happ⟩
  · have hcall := mount_devices_with_config_update_err env fs0 _ fs2
      devices config (some (backupPath fstabPath env.timestamp)) e
      hback hnef hup
    refine ⟨by rw [hcall], ?_⟩
    rw [hcall, hc0]
    exact hrestore (by rw [hup])
  · have hcall := mount_devices_with_config_apply_err env fs0 _ fs2
      devices config (some (backupPath fstabPath env.timestamp)) e
      hback hnef hup happ
    refine ⟨by rw [hcall], ?_⟩
    rw [hcall, hc0]
    exact hrestore (by rw [hup])

/-- Witness for C2 at a concrete input: the rewrite succeeds, `mount -a`
exits non-zero, and the table is rolled back to its original (empty)
content. -/
theorem C2_witness :
    (mount_devices_with_config envMountFails fsEmptyTab ["/dev/sda1"]
        MountConfig.default).1 =
      .error (.CommandFailed "mount failed") ∧
    fsRead (mount_devices_with_config envMountFails fsEmptyTab ["/dev/sda1"]
        MountConfig.default).2 fstabPath =
      fsRead fsEmptyTab fstabPath :=
  C2_rollback_restores_table envMountFails fsEmptyTab
    (update_fstab_safe
      (fsWrite fsEmptyTab (backupPath fstabPath 0) "") fstabPath
      (prepare_all envMountFails MountConfig.default ["/dev/sda1"]).1
      MountConfig.default).2
    ["/dev/sda1"] MountConfig.default (.CommandFailed "mount failed") ""
    rfl (by decide) (by decide)
    (Or.inr ⟨by decide, by decide⟩)

end mount_manager

namespace mount_manager

theorem prepare_all_results_devices (env : Env) (config : MountConfig)
    (devices : List String) :
    (prepare_all env config devices).2.map (fun r => r.device) = devices := by
  induction devices with
  | nil => rfl
  | cons d rest ih =>
    cases hpe : prepare_mount_entry env d config with
    | ok entry => simp [prepare_all, hpe, ih]
    | error e => simp [prepare_all, hpe, ih]

theorem prepare_all_entries_eq_filterMap (env : Env) (config : MountConfig)
    (devices : List String) :
    (prepare_all env config devices).1 =
      devices.filterMap
        (fun d => (prepare_mount_entry env d config).toOption) := by
  induction devices with
  | nil => rfl
  | cons d rest ih =>
    cases hpe : prepare_mount_entry env d config with
    | ok entry => simp [prepare_all, hpe, ih, Except.toOption]
    | error e => simp [prepare_all, hpe, ih, Except.toOption]

theorem prepare_all_failed_results (env : Env) (config : MountConfig)
    (devices : List String) :
    ∀ r ∈ (prepare_all env config devices).2, r.success = false →
      ∃ e, prepare_mount_entry env r.device config = .error e ∧
        r.error_message = some (errString e) := by
  induction devices with
  | nil => intro r hr; simp [prepare_all] at hr
  | cons d rest ih =>
    intro r hr hs
    cases hpe : prepare_mount_entry env d config with
    | ok entry =>
      simp only [prepare_all, hpe] at hr
      rcases List.mem_cons.mp hr with rfl | hr'
      · simp at hs
      · exact ih r hr' hs
    | error e =>
      simp only [prepare_all, hpe] at hr
      rcases List.mem_cons.mp hr with rfl | hr'
      · exact ⟨e, hpe, rfl⟩
      · exact ih r hr' hs

theorem prepare_all_results_eq_map (env : Env) (config : MountConfig)
    (devices : List String) :
    (prepare_all env config devices).2 =
      devices.map (fun d =>
        match prepare_mount_entry env d config with
        | .ok entry =>
          { device := d, mount_point := entry.mount_point,
            success := true, error_message := none }
        | .error e =>
          { device := d, mount_point := "",
            success := false, error_message := some (errString e) }) := by
  induction devices with
  | nil => rfl
  | cons d rest ih =>
    cases hpe : prepare_mount_entry env d config with
    | ok entry => simp [prepare_all, hpe, ih]
    | error e => simp [prepare_all, hpe, ih]

/-- C4: the preparation loop never aborts: every device gets exactly one
per-device result in input order, a succeeding device a `success := true`
result and a failing device a `success := false` result carrying its error
text (the positional `map` characterization); a failing device is excluded
from the entry batch; and when no entry at all was prepared the call
returns the per-device results without an error and leaves the mount table
file untouched. -/
theorem C4_prepare_failures_isolated
    (env : Env) (fs0 : FS) (devices : List String) (config : MountConfig)
    (hbk : config.backup_fstab = true → fsExists fs0 fstabPath = true) :
    (prepare_all env config devices).2.map (fun r => r.device) = devices ∧
    (prepare_all env config devices).2 =
      devices.map (fun d =>
        match prepare_mount_entry env d config with
        | .ok entry =>
          { device := d, mount_point := entry.mount_point,
            success := true, error_message := none }
        | .error e =>
          { device := d, mount_point := "",
            success := false, error_message := some (errString e) }) ∧
    (prepare_all env config devices).1 =
      devices.filterMap
        (fun d => (prepare_mount_entry env d config).toOption) ∧
    (∀ r ∈ (prepare_all env config devices).2, r.success = false →
      ∃ e, prepare_mount_entry env r.device config = .error e ∧
        r.error_message = some (errString e)) ∧
    ((prepare_all env config devices).1 = [] →
      (mount_devices_with_config env fs0 devices config).1 =
        .ok (prepare_all env config devices).2 ∧
      fsRead (mount_devices_with_config env fs0 devices config).2 fstabPath =
        fsRead fs0 fstabPath) := by
  refine ⟨prepare_all_results_devices env config devices,
    prepare_all_results_eq_map env config devices,
    prepare_all_entries_eq_filterMap env config devices,
    prepare_all_failed_results env config devices, ?_⟩
  intro hempty
  have hemp : (prepare_all env config devices).1.isEmpty = true := by
    rw [hempty]; rfl
  by_cases hbf : config.backup_fstab = true
  · have hex := hbk hbf
    obtain ⟨c0, hc0⟩ : ∃ c0, fsRead fs0 fstabPath = some c0 := by
      rw [fsExists] at hex
      exact Option.isSome_iff_exists.mp hex
    have hback : (if config.backup_fstab then
          (create_fstab_backup fs0 fstabPath env.timestamp).map
            (fun pr => (some pr.1, pr.2))
        else .ok (none, fs0)) =
        .ok (some (backupPath fstabPath env.timestamp),
             fsWrite fs0 (backupPath fstabPath env.timestamp) c0) := by
      rw [if_pos hbf, create_fstab_backup_ok fs0 env.timestamp c0 hc0]
      rfl
    have hcall := mount_devices_with_config_no_entries env fs0 _
      devices config (some (backupPath fstabPath env.timestamp)) hback hemp
    refine ⟨by rw [hcall], ?_⟩
    rw [hcall]
    exact fsRead_fsWrite_ne _ _ _ _ (Ne.symm (backupPath_ne_fstabPath _))
  · have hbf' : config.backup_fstab = false := by
      cases hcb : config.backup_fstab
      · rfl
      · exact absurd hcb hbf
    have hback : (if config.backup_fstab then
          (create_fstab_backup fs0 fstabPath env.timestamp).map
            (fun pr => (some pr.1, pr.2))
        else .ok (none, fs0)) = .ok (none, fs0) := by
      rw [if_neg (by simp [hbf'])]
    have hcall := mount_devices_with_config_no_entries env fs0 _
      devices config none hback hemp
    exact ⟨by rw [hcall], by rw [hcall]⟩

/-- Witness for C4 at a concrete input: `blkid` fails for `/dev/sda1` but
succeeds for `/dev/sdb1`, so the first device's result records
`success := false` with the error text while the second is prepared
normally — one device's failure neither aborts nor contaminates the
rest. -/
theorem C4_witness :
    (prepare_all envBlkidOneFails MountConfig.default
      ["/dev/sda1", "/dev/sdb1"]).2.map (fun r => r.device) =
        ["/dev/sda1", "/dev/sdb1"] ∧
    (prepare_all envBlkidOneFails MountConfig.default
      ["/dev/sda1", "/dev/sdb1"]).2 =
      ["/dev/sda1", "/dev/sdb1"].map (fun d =>
        match prepare_mount_entry envBlkidOneFails d MountConfig.default with
        | .ok entry =>
          { device := d, mount_point := entry.mount_point,
            success := true, error_message := none }
        | .error e =>
          { device := d, mount_point := "",
            success := false, error_message := some (errString e) }) ∧
    (prepare_all envBlkidOneFails MountConfig.default
      ["/dev/sda1", "/dev/sdb1"]).1 =
      ["/dev/sda1", "/dev/sdb1"].filterMap
        (fun d =>
          (prepare_mount_entry envBlkidOneFails d
            MountConfig.default).toOption) ∧
    (∀ r ∈ (prepare_all envBlkidOneFails MountConfig.default
        ["/dev/sda1", "/dev/sdb1"]).2, r.success = false →
      ∃ e, prepare_mount_entry envBlkidOneFails r.device
          MountConfig.default = .error e ∧
        r.error_message = some (errString e)) ∧
    ((prepare_all envBlkidOneFails MountConfig.default
        ["/dev/sda1", "/dev/sdb1"]).1 = [] →
      (mount_devices_with_config envBlkidOneFails fsEmptyTab
          ["/dev/sda1", "/dev/sdb1"] MountConfig.default).1 =
        .ok (prepare_all envBlkidOneFails MountConfig.default
          ["/dev/sda1", "/dev/sdb1"]).2 ∧
      fsRead (mount_devices_with_config envBlkidOneFails fsEmptyTab
          ["/dev/sda1", "/dev/sdb1"] MountConfig.default).2 fstabPath =
        fsRead fsEmptyTab fstabPath) :=
  C4_prepare_failures_isolated envBlkidOneFails fsEmptyTab
    ["/dev/sda1", "/dev/sdb1"] MountConfig.default (fun _ => by decide)

end mount_manager

theorem any_congr_on (l : List String) (f g : String → Bool)
    (h : ∀ d ∈ l, f d = g d) : l.any f = l.any g := by
  induction l with
  | nil => rfl
  | cons d rest ih =>
    rw [List.any_cons, List.any_cons, h d (by simp),
      ih (fun x hx => h x (by simp [hx]))]

namespace smart_mount

theorem size_check_eq_capacitySpec (env : Env) (d : String) (thr : Nat)
    (h : env.blockdevSize d ≠ none ∨ 0 < thr) :
    (match get_device_size_gb env d with
     | .ok size_gb => decide (size_gb ≥ thr)
     | .error _ => false) =
    decide (capacityBytesSpec env d / 2 ^ 30 ≥ thr) := by
  unfold get_device_size_gb capacityBytesSpec
  cases hbd : env.blockdevSize d with
  | none =>
    rcases h with h | h
    · exact absurd hbd h
    · simp only [Nat.zero_div]
      rw [decide_eq_false (by omega)]
  | some out =>
    by_cases hs : out.success
    · rw [show (1024 * 1024 * 1024 : Nat) = 2 ^ 30 from by norm_num]
      simp [hs]
    · simp only [hs, Bool.false_eq_true, if_false]
      simp [Nat.zero_div]

/-- C5 (amended): the decision order of `should_use_gpt` is `skip_gpt`
first (false), then `force_gpt` (true), then the size scan returning true
iff some device's attributed capacity in bytes divided by `2 ^ 30` reaches
the threshold; a capacity query that runs and exits non-zero is attributed
size 0, while a query whose process cannot be started at all makes the
device skipped, which coincides with size 0 whenever the threshold is
positive or every query process starts. -/
theorem C5_decision_order
    (env : Env) (devices : List String) (config : MountConfig) :
    (config.skip_gpt = true →
      should_use_gpt env devices config = .ok false) ∧
    (config.skip_gpt = false → config.force_gpt = true →
      should_use_gpt env devices config = .ok true) ∧
    (config.skip_gpt = false → config.force_gpt = false →
      ((∀ d ∈ devices, env.blockdevSize d ≠ none) ∨
        0 < config.gpt_threshold_gb) →
      should_use_gpt env devices config =
        .ok (devices.any (fun d =>
          decide (capacityBytesSpec env d / 2 ^ 30 ≥
            config.gpt_threshold_gb)))) := by
  refine ⟨?_, ?_, ?_⟩
  · intro hs
    simp [should_use_gpt, hs]
  · intro hs hf
    simp [should_use_gpt, hs, hf]
  · intro hs hf h
    simp only [should_use_gpt, hs, hf, Bool.false_eq_true, if_false]
    congr 1
    refine any_congr_on _ _ _ (fun d hd => ?_)
    refine size_check_eq_capacitySpec env d _ ?_
    rcases h with h | h
    · exact Or.inl (h d hd)
    · exact Or.inr h

/-- Counterexample to C5 exactly as stated: with threshold 0 and a
capacity-query process that cannot be started, "failed query counts as
size 0" demands `true` (since 0 / 2^30 = 0 ≥ 0), but the code skips the
device and answers `false`. -/
theorem C5_counterexample :
    should_use_gpt envSizeSpawnFails ["/dev/sda"]
      { force_gpt := false, gpt_threshold_gb := 0, skip_gpt := false } =
      .ok false ∧
    (["/dev/sda"].any (fun d =>
      decide (capacityBytesSpec envSizeSpawnFails d / 2 ^ 30 ≥ 0))) =
      true := by
  constructor
  · rfl
  · rfl

/-- Witness for C5 (amended) at a concrete input: default thresholds, one
device of reported size 0, all queries spawnable. -/
theorem C5_witness :
    should_use_gpt envOk ["/dev/sda"] MountConfig.default =
      .ok (["/dev/sda"].any (fun d =>
        decide (capacityBytesSpec envOk d / 2 ^ 30 ≥
          MountConfig.default.gpt_threshold_gb))) :=
  (C5_decision_order envOk ["/dev/sda"] MountConfig.default).2.2 rfl rfl
    (Or.inl (by decide))

/-- C6: `should_use_gpt` is monotone under lowering the threshold with
device sizes held fixed: a `true` decision at threshold `t` stays `true`
at any threshold `t' ≤ t`. -/
theorem C6_threshold_monotone
    (env : Env) (devices : List String) (config : MountConfig)
    (t t' : Nat) (hle : t' ≤ t)
    (ht : should_use_gpt env devices
      { config with gpt_threshold_gb := t } = .ok true) :
    should_use_gpt env devices
      { config with gpt_threshold_gb := t' } = .ok true := by
  unfold should_use_gpt at ht ⊢
  by_cases hs : config.skip_gpt
  · simp [hs] at ht
  · by_cases hf : config.force_gpt
    · simp [hs, hf]
    · simp only [hs, hf, Bool.false_eq_true, if_false] at ht ⊢
      have hany := Except.ok.inj ht
      obtain ⟨d, hd, hfd⟩ := List.any_eq_true.mp hany
      cases hg : get_device_size_gb env d with
      | error e => rw [hg] at hfd; exact absurd hfd (by simp)
      | ok n =>
        rw [hg] at hfd
        have hn : n ≥ t := of_decide_eq_true hfd
        congr 1
        refine List.any_eq_true.mpr ⟨d, hd, ?_⟩
        rw [hg]
        exact decide_eq_true (le_trans hle hn)

/-- Witness for C6 at a concrete input: a 3072 GiB disk decides `true` at
threshold 2000 and stays `true` at threshold 1500. -/
theorem C6_witness :
    should_use_gpt envBigDisk ["/dev/sda"]
      { MountConfig.default with gpt_threshold_gb := 1500 } = .ok true :=
  C6_threshold_monotone envBigDisk ["/dev/sda"] MountConfig.default
    2000 1500 (by omega) (by decide)

end smart_mount

namespace device_filter

theorem collect_ok_filtered (env : Env) (devices : List String)
    (infos : List DeviceInfo)
    (h : collect_device_infos env devices = .ok infos) :
    (infos.filter (fun i => i.is_rotational && !i.is_mounted)).map
      (fun i => i.path) =
    devices.filter (fun d =>
      reportedRotational env d && !devMounted env.disks d) := by
  induction devices generalizing infos with
  | nil =>
    simp only [collect_device_infos] at h
    cases h
    rfl
  | cons d rest ih =>
    simp only [collect_device_infos] at h
    cases hr : is_rotational_device env d with
    | error e => rw [hr] at h; cases h
    | ok rot =>
      rw [hr] at h
      simp only [is_device_mounted] at h
      cases hc : collect_device_infos env rest with
      | error e => rw [hc] at h; cases h
      | ok tail =>
        rw [hc] at h
        cases h
        have hrep : reportedRotational env d = rot := by
          unfold reportedRotational
          rw [hr]
        rw [List.filter_cons, List.filter_cons]
        by_cases hkeep : (rot && !devMounted env.disks d) = true
        · rw [if_pos (by simpa using hkeep),
            if_pos (by rw [hrep]; simpa using hkeep)]
          rw [List.map_cons, ih tail hc]
        · rw [if_neg (by simpa using hkeep),
            if_neg (by rw [hrep]; simpa using hkeep)]
          exact ih tail hc

/-- C7: a successful filter run returns a subset of the input devices in
input order, consisting of exactly those devices the probe reports as
rotational and not live-mounted; and the empty input list succeeds with
the empty output list rather than an error (stated unconditionally for
every environment). -/
theorem C7_filter_keeps_unmounted_rotational
    (env : Env) (devices out : List String)
    (h : filter_unmounted_hdd_devices env devices = .ok out) :
    out.Sublist devices ∧
    out = devices.filter (fun d =>
      reportedRotational env d && !devMounted env.disks d) ∧
    (devices = [] → out = []) ∧
    filter_unmounted_hdd_devices env [] = .ok [] := by
  have hout : out = devices.filter (fun d =>
      reportedRotational env d && !devMounted env.disks d) := by
    unfold filter_unmounted_hdd_devices at h
    cases hc : collect_device_infos env devices with
    | error e => rw [hc] at h; cases h
    | ok infos =>
      rw [hc] at h
      cases h
      exact collect_ok_filtered env devices infos hc
  refine ⟨?_, hout, ?_, rfl⟩
  · rw [hout]
    exact List.filter_sublist devices
  · intro hdev
    rw [hout, hdev]
    rfl

/-- Witness for C7 at a concrete input: `sda` rotational and unmounted,
`sdb` non-rotational, `sdc` mounted; only `sda` survives, and the same
environment's filter of the empty list succeeds with the empty list. -/
theorem C7_witness :
    (["/dev/sda"] : List String).Sublist ["/dev/sda", "/dev/sdb", "/dev/sdc"] ∧
    ["/dev/sda"] = (["/dev/sda", "/dev/sdb", "/dev/sdc"] : List String).filter
      (fun d => reportedRotational envMixedDisks d &&
        !devMounted envMixedDisks.disks d) ∧
    ((["/dev/sda", "/dev/sdb", "/dev/sdc"] : List String) = [] →
      (["/dev/sda"] : List String) = []) ∧
    filter_unmounted_hdd_devices envMixedDisks [] = .ok [] :=
  C7_filter_keeps_unmounted_rotational envMixedDisks
    ["/dev/sda", "/dev/sdb", "/dev/sdc"] ["/dev/sda"] (by decide)

theorem collect_first_probe_error (env : Env) (pre : List String)
    (d : String) (post : List String) (e : DeviceFilterError)
    (hpre : ∀ d' ∈ pre, ∃ b, is_rotational_device env d' = .ok b)
    (hd : is_rotational_device env d = .error e) :
    collect_device_infos env (pre ++ d :: post) = .error e := by
  induction pre with
  | nil =>
    simp only [List.nil_append, collect_device_infos, hd]
  | cons p pre' ih =>
    obtain ⟨b, hb⟩ := hpre p (by simp)
    simp only [List.cons_append, collect_device_infos, hb,
      is_device_mounted, List.append_eq]
    rw [ih (fun x hx => hpre x (by simp [hx]))]

/-- C8: a probe failure on any one device (command failure or malformed
output, both surfacing as an `Except.error` from the rotational query)
aborts the whole filter call with that error, so no partial result list is
produced for the devices before or after it. -/
theorem C8_probe_failure_aborts_filter
    (env : Env) (pre : List String) (d : String) (post : List String)
    (e : DeviceFilterError)
    (hpre : ∀ d' ∈ pre, ∃ b, is_rotational_device env d' = .ok b)
    (hd : is_rotational_device env d = .error e) :
    filter_unmounted_hdd_devices env (pre ++ d :: post) = .error e := by
  unfold filter_unmounted_hdd_devices
  rw [collect_first_probe_error env pre d post e hpre hd]

/-- Witness for C8 at a concrete input: the rotational query fails for
`sdb`, and the whole filter call errors although `sda` probed fine and
`sdc` was never reached. -/
theorem C8_witness :
    filter_unmounted_hdd_devices envProbeFails
      (["/dev/sda"] ++ "/dev/sdb" :: ["/dev/sdc"]) =
      .error (.CommandFailed "lsblk failed") :=
  C8_probe_failure_aborts_filter envProbeFails ["/dev/sda"] "/dev/sdb"
    ["/dev/sdc"] (.CommandFailed "lsblk failed")
    (by intro d' hd'; exact ⟨true, by
      rcases List.mem_singleton.mp hd' with rfl
      decide⟩)
    (by decide)

end device_filter

namespace partition_manager

/-- C10: the device-path validation of `partition_manager.rs` accepts
exactly the strings starting with `/dev/sd` whose byte length is 8; every
other path — partition paths like `/dev/sda1`, non-SATA nodes like
`/dev/nvme0n1` — is rejected with `InvalidDevicePath` independently of the
environment (so before any external command can run), and a batch
containing such a path fails as a whole. -/
theorem C10_path_validation_exact
    :
    (∀ d : String, validate_device_path d = .ok () ↔
      (rsStartsWith d "/dev/sd" = true ∧ d.utf8ByteSize = 8)) ∧
    validate_device_path "/dev/sda" = .ok () ∧
    validate_device_path "/dev/sda1" =
      .error (.InvalidDevicePath "/dev/sda1") ∧
    validate_device_path "/dev/nvme0n1" =
      .error (.InvalidDevicePath "/dev/nvme0n1") ∧
    (∀ (env : Env) (d : String),
      ¬(rsStartsWith d "/dev/sd" = true ∧ d.utf8ByteSize = 8) →
      create_single_partition_parted env d =
        .error (.InvalidDevicePath d) ∧
      change_single_device_to_gpt env d =
        .error (.InvalidDevicePath d)) ∧
    (∀ (env : Env) (devices : List String) (d : String),
      d ∈ devices →
      ¬(rsStartsWith d "/dev/sd" = true ∧ d.utf8ByteSize = 8) →
      (∃ e, create_partition env devices = .error e) ∧
      (∃ e, change_devices_to_gpt env devices = .error e)) := by
  have hiff : ∀ d : String, validate_device_path d = .ok () ↔
      (rsStartsWith d "/dev/sd" = true ∧ d.utf8ByteSize = 8) := by
    intro d
    unfold validate_device_path
    constructor
    · intro h
      by_cases h7 : rsStartsWith d "/dev/sd" = true
      · by_cases h8 : d.utf8ByteSize = 8
        · exact ⟨h7, h8⟩
        · exfalso
          by_cases h5 : rsStartsWith d "/dev/" = true
          · simp [h5, h7, h8] at h
          · simp [h5] at h
      · exfalso
        by_cases h5 : rsStartsWith d "/dev/" = true
        · simp [h5, h7] at h
        · simp [h5] at h
    · intro hok
      have h5 : rsStartsWith d "/dev/" = true := by
        rw [rsStartsWith, listIsPrefix_iff]
        have h7 := hok.1
        rw [rsStartsWith, listIsPrefix_iff] at h7
        exact List.IsPrefix.trans (by decide) h7
      simp [h5, hok.1, hok.2]
  have hsingle : ∀ (env : Env) (d : String),
      ¬(rsStartsWith d "/dev/sd" = true ∧ d.utf8ByteSize = 8) →
      create_single_partition_parted env d =
        .error (.InvalidDevicePath d) ∧
      change_single_device_to_gpt env d =
        .error (.InvalidDevicePath d) := by
    intro env d hrej
    have hval : validate_device_path d = .error (.InvalidDevicePath d) := by
      cases hv : validate_device_path d with
      | ok u => cases u; exact absurd ((hiff d).mp hv) hrej
      | error e =>
        unfold validate_device_path at hv
        split at hv
        · cases hv; rfl
        · split at hv
          · cases hv
          · cases hv; rfl
    constructor
    · unfold create_single_partition_parted
      rw [hval]
    · unfold change_single_device_to_gpt
      rw [hval]
  have hbatch : ∀ (env : Env) (devices : List String) (d : String),
      d ∈ devices →
      ¬(rsStartsWith d "/dev/sd" = true ∧ d.utf8ByteSize = 8) →
      (∃ e, create_partition env devices = .error e) ∧
      (∃ e, change_devices_to_gpt env devices = .error e) := by
    intro env devices d hmem hrej
    induction devices with
    | nil => cases hmem
    | cons a rest ih =>
      rcases List.mem_cons.mp hmem with rfl | hmem'
      · refine ⟨⟨.InvalidDevicePath d, ?_⟩, ⟨.InvalidDevicePath d, ?_⟩⟩
        · simp only [create_partition, (hsingle env d hrej).1]
        · simp only [change_devices_to_gpt, (hsingle env d hrej).2]
      · obtain ⟨⟨e1, he1⟩, ⟨e2, he2⟩⟩ := ih hmem'
        constructor
        · cases hs : create_single_partition_parted env a with
          | error e => exact ⟨e, by simp only [create_partition, hs]⟩
          | ok pp => exact ⟨e1, by simp only [create_partition, hs, he1]⟩
        · cases hs : change_single_device_to_gpt env a with
          | error e =>
            exact ⟨e, by simp only [change_devices_to_gpt, hs]⟩
          | ok u =>
            cases u
            exact ⟨e2, by simp only [change_devices_to_gpt, hs, he2]⟩
  exact ⟨hiff, (hiff "/dev/sda").mpr (by decide), by decide, by decide,
    hsingle, hbatch⟩

end partition_manager

namespace partition_manager

/-- Witness for C10 at concrete inputs: a partition path and a non-SATA
node are rejected, and batches containing them fail. -/
theorem C10_witness :
    create_single_partition_parted envOk "/dev/sda1" =
      .error (.InvalidDevicePath "/dev/sda1") ∧
    (∃ e, create_partition envOk ["/dev/sda", "/dev/sda1"] = .error e) ∧
    (∃ e, change_devices_to_gpt envOk ["/dev/nvme0n1"] = .error e) :=
  ⟨(C10_path_validation_exact.2.2.2.2.1 envOk "/dev/sda1" (by decide)).1,
   (C10_path_validation_exact.2.2.2.2.2 envOk ["/dev/sda", "/dev/sda1"]
     "/dev/sda1" (by decide) (by decide)).1,
   (C10_path_validation_exact.2.2.2.2.2 envOk ["/dev/nvme0n1"]
     "/dev/nvme0n1" (by decide) (by decide)).2⟩

end partition_manager

namespace smart_mount

/-- C9: the orchestrator discards the `Result` of `mount_devices`, and
`SmartMountError` has no mount-registration constructor; whenever
discovery, filtering, the GPT decision and conversion, partitioning and
formatting succeed, `smart_auto_mount_with_config` returns `Ok (())` even
though mount registration failed. -/
theorem C9_mount_failure_invisible
    (env : Env) (fs : FS) (config : MountConfig)
    (devices filtered parts : List String) (use_gpt : Bool)
    (e : mount_manager.MountError)
    (h1 : device_discovery.find_connected_satas env = .ok devices)
    (h2 : devices.isEmpty = false)
    (h3 : device_filter.filter_unmounted_hdd_devices env devices =
      .ok filtered)
    (h4 : filtered.isEmpty = false)
    (h5 : should_use_gpt env filtered config = .ok use_gpt)
    (h6 : use_gpt = true →
      partition_manager.change_devices_to_gpt env filtered = .ok ())
    (h7 : partition_manager.create_partition env filtered = .ok parts)
    (h8 : filesystem.format_devices env parts = .ok ())
    (_h9 : (mount_manager.mount_devices env fs parts).1 = .error e) :
    (smart_auto_mount_with_config env fs config).1 = .ok () := by
  cases use_gpt with
  | false =>
    simp [smart_auto_mount_with_config, h1, h2, h3, h4, h5, h7, h8]
  | true =>
    have h6' := h6 rfl
    simp [smart_auto_mount_with_config, h1, h2, h3, h4, h5, h6', h7, h8]

/-- Witness for C9 at a concrete input: the whole pipeline succeeds,
`mount -a` fails, and the orchestrator still reports success. -/
theorem C9_witness :
    (smart_auto_mount_with_config envMountFails fsEmptyTab
      MountConfig.default).1 = .ok () :=
  C9_mount_failure_invisible envMountFails fsEmptyTab MountConfig.default
    ["/dev/sda"] ["/dev/sda"] ["/dev/sda1"] false
    (.CommandFailed "mount failed")
    (by decide) (by decide) (by decide) (by decide) (by decide)
    (fun h => absurd h (by decide)) (by decide) (by decide) (by decide)

end smart_mount

theorem splitCharData_append_sep (sep : Char) (a b : List Char)
    (ha : sep ∉ a) :
    splitCharData sep (a ++ sep :: b) = a :: splitCharData sep b := by
  induction a with
  | nil =>
    simp [splitCharData]
  | cons c a' ih =>
    have hc : ¬(c = sep) := fun h => ha (by simp [h])
    simp only [List.cons_append, splitCharData, List.append_eq]
    rw [ih (fun h => ha (by simp [h]))]
    rw [if_neg hc]

theorem splitCharData_writeLines (L : List String)
    (h : ∀ l ∈ L, '\n' ∉ l.data) :
    splitCharData '\n' (writeLines L).data = L.map String.data ++ [[]] := by
  induction L with
  | nil => rfl
  | cons l L' ih =>
    have hdata : (writeLines (l :: L')).data =
        l.data ++ '\n' :: (writeLines L').data := rfl
    rw [hdata, splitCharData_append_sep _ _ _ (h l (by simp)),
      ih (fun x hx => h x (by simp [hx]))]
    rfl

theorem rustLines_writeLines (L : List String)
    (h : ∀ l ∈ L, goodLine l) :
    rustLines (writeLines L) = L := by
  unfold rustLines
  rw [splitCharData_writeLines L (fun l hl => (h l hl).1)]
  simp only [List.getLast?_concat, eq_self_iff_true, if_true,
    List.dropLast_concat, List.map_map]
  have hmap : ∀ l ∈ L,
      ((fun cs => String.mk (stripCr cs)) ∘ String.data) l = id l := by
    intro l hl
    simp only [Function.comp_apply, id]
    rw [stripCr, if_neg (h l hl).2]
  rw [List.map_congr_left hmap, List.map_id]

namespace mount_manager

theorem strContains_formatFstabLine (entry : MountEntry) :
    strContains (formatFstabLine entry) entry.mount_point = true := by
  unfold strContains formatFstabLine
  rw [decide_eq_true_iff]
  refine ⟨entry.uuid.data ++ "  ".data,
    ("  " ++ entry.filesystem ++ "    " ++ entry.options ++
      "    0   0").data, ?_⟩
  simp [String.data_append, List.append_assoc]

theorem buildNewFstabLines_single (L : List String) (entry : MountEntry) :
    buildNewFstabLines L [entry] =
      L.filter (fun line => !strContains line entry.mount_point) ++
        [formatFstabLine entry] := by
  unfold buildNewFstabLines
  simp

theorem buildNewFstabLines_single_idem (L : List String)
    (entry : MountEntry) :
    buildNewFstabLines (buildNewFstabLines L [entry]) [entry] =
      buildNewFstabLines L [entry] := by
  rw [buildNewFstabLines_single, buildNewFstabLines_single,
    List.filter_append]
  have hkeep : (List.filter
      (fun line => !strContains line entry.mount_point) L).filter
        (fun line => !strContains line entry.mount_point) =
      List.filter (fun line => !strContains line entry.mount_point) L :=
    List.filter_eq_self.mpr (fun a ha => (List.mem_filter.mp ha).2)
  rw [hkeep]
  have hfmf : List.filter (fun line => !strContains line entry.mount_point)
      [formatFstabLine entry] = [] := by
    simp [strContains_formatFstabLine entry]
  rw [hfmf, List.append_nil]

theorem count_contains_buildNew_single (L : List String)
    (entry : MountEntry) :
    ((buildNewFstabLines L [entry]).filter
      (fun l => strContains l entry.mount_point)).length = 1 := by
  rw [buildNewFstabLines_single, List.filter_append]
  have h1 : (L.filter (fun line => !strContains line entry.mount_point)).filter
      (fun l => strContains l entry.mount_point) = [] := by
    rw [List.filter_filter]
    simp
  rw [h1]
  simp [strContains_formatFstabLine entry]

end mount_manager

namespace mount_manager

/-- C3: registering the same entry twice through the rewrite step is
idempotent: every existing line containing the new mount point is removed
before the one freshly formatted line is appended, so after the second
call the table holds exactly one line containing that mount point and is
line-for-line identical to the table after the first call. -/
theorem C3_reregistration_idempotent
    (fs0 fs1 fs2 : FS) (entry : MountEntry) (config : MountConfig)
    (hgood0 : ∀ l ∈ readFstabLines fs0 fstabPath, goodLine l)
    (hgoodE : goodLine (formatFstabLine entry))
    (h1 : update_fstab_safe fs0 fstabPath [entry] config = (.ok (), fs1))
    (h2 : update_fstab_safe fs1 fstabPath [entry] config = (.ok (), fs2)) :
    ((readFstabLines fs2 fstabPath).filter
      (fun l => strContains l entry.mount_point)).length = 1 ∧
    readFstabLines fs2 fstabPath = readFstabLines fs1 fstabPath := by
  have hc1 := update_fstab_safe_ok_content fs0 fs1 fstabPath [entry]
    config h1
  have hgoodB1 : ∀ l ∈ buildNewFstabLines (readFstabLines fs0 fstabPath)
      [entry], goodLine l := by
    intro l hl
    rw [buildNewFstabLines_single] at hl
    rcases List.mem_append.mp hl with hl | hl
    · exact hgood0 l (List.mem_of_mem_filter hl)
    · rw [List.mem_singleton.mp hl]
      exact hgoodE
  have hread1 : readFstabLines fs1 fstabPath =
      buildNewFstabLines (readFstabLines fs0 fstabPath) [entry] := by
    rw [readFstabLines, fsExists, hc1]
    simp only [Option.isSome_some, Option.getD_some, eq_self_iff_true,
      if_true]
    exact rustLines_writeLines _ hgoodB1
  have hc2 := update_fstab_safe_ok_content fs1 fs2 fstabPath [entry]
    config h2
  have hgoodB2 : ∀ l ∈ buildNewFstabLines (readFstabLines fs1 fstabPath)
      [entry], goodLine l := by
    rw [hread1, buildNewFstabLines_single_idem]
    exact hgoodB1
  have hread2 : readFstabLines fs2 fstabPath =
      buildNewFstabLines (readFstabLines fs1 fstabPath) [entry] := by
    rw [readFstabLines, fsExists, hc2]
    simp only [Option.isSome_some, Option.getD_some, eq_self_iff_true,
      if_true]
    exact rustLines_writeLines _ hgoodB2
  constructor
  · rw [hread2]
    exact count_contains_buildNew_single _ entry
  · rw [hread2, hread1]
    exact buildNewFstabLines_single_idem _ entry

/-- Witness for C3 at a concrete input: one entry re-registered over a
one-comment table. -/
theorem C3_witness :
    ((readFstabLines
        (update_fstab_safe
          (update_fstab_safe fsCommentTab fstabPath
            [{ device := "/dev/sda1", uuid := "UUID=abc",
               mount_point := "/mnt/sda1", filesystem := "ext4",
               options := "rw,acl" }] MountConfig.default).2
          fstabPath
          [{ device := "/dev/sda1", uuid := "UUID=abc",
             mount_point := "/mnt/sda1", filesystem := "ext4",
             options := "rw,acl" }] MountConfig.default).2
        fstabPath).filter
      (fun l => strContains l "/mnt/sda1")).length = 1 ∧
    readFstabLines
      (update_fstab_safe
        (update_fstab_safe fsCommentTab fstabPath
          [{ device := "/dev/sda1", uuid := "UUID=abc",
             mount_point := "/mnt/sda1", filesystem := "ext4",
             options := "rw,acl" }] MountConfig.default).2
        fstabPath
        [{ device := "/dev/sda1", uuid := "UUID=abc",
           mount_point := "/mnt/sda1", filesystem := "ext4",
           options := "rw,acl" }] MountConfig.default).2
      fstabPath =
    readFstabLines
      (update_fstab_safe fsCommentTab fstabPath
        [{ device := "/dev/sda1", uuid := "UUID=abc",
           mount_point := "/mnt/sda1", filesystem := "ext4",
           options := "rw,acl" }] MountConfig.default).2
      fstabPath :=
  C3_reregistration_idempotent fsCommentTab
    (update_fstab_safe fsCommentTab fstabPath
      [{ device := "/dev/sda1", uuid := "UUID=abc",
         mount_point := "/mnt/sda1", filesystem := "ext4",
         options := "rw,acl" }] MountConfig.default).2
    (update_fstab_safe
      (update_fstab_safe fsCommentTab fstabPath
        [{ device := "/dev/sda1", uuid := "UUID=abc",
           mount_point := "/mnt/sda1", filesystem := "ext4",
           options := "rw,acl" }] MountConfig.default).2
      fstabPath
      [{ device := "/dev/sda1", uuid := "UUID=abc",
         mount_point := "/mnt/sda1", filesystem := "ext4",
         options := "rw,acl" }] MountConfig.default).2
    { device := "/dev/sda1", uuid := "UUID=abc",
      mount_point := "/mnt/sda1", filesystem := "ext4",
      options := "rw,acl" } MountConfig.default
    (by decide) (by decide) (by decide) (by decide)

end mount_manager
